import Mathlib

/-!
Verification of the pic24I2C driver (`src/i2cDriver.c`, `src/i2cDriver.h`).

The driver's globals (`i2c_state`, `i2c_error`, `i2c_stayInErrorState`,
`TRXBuffer`, `TRXBufferCurrPos`, `TRXBufferLen`, `numRXBytes`) are gathered in
a `Driver` record; each C function becomes a Lean function from `Driver` to a
return code paired with the updated `Driver`.  The interrupt service routine
`I2CInterruptRoutine` becomes a step function `i2cISR` taking a `BusEvent`
holding the hardware inputs it reads (`I2CSTATbits.BCL`, `I2CSTATbits.ACKSTAT`,
`I2CRCV`).  Hardware-only effects (baud-rate registers, interrupt flags, the
`waitUntilIdle` spins, byte writes to `I2CTRN`) have no driver-visible state
and are dropped; the state assignments performed by the `sendStartCondition`,
`sendReStartCondition`, `sendStopCondition` and `sendAck` macros are kept.
Bytes are `Nat` reduced mod 256 where the C code stores into `unsigned char`.
-/

/-- The `enum i2c_states` of `i2cDriver.h`. -/
inductive I2CState where
  | idle
  | sendingStart
  | dataTX
  | sendingRestart
  | sendingStop
  | dataRX
  | ack
  | error
  | disabled
deriving DecidableEq, Repr

/-- The `enum i2c_errors` values, kept as the C integer codes so that
`if ( i2c_error )` translates to a zero test. -/
def I2C_ERR_noError : Nat := 0

def I2C_ERR_internal : Nat := 1

def I2C_ERR_inErrorState : Nat := 2

def I2C_ERR_busy : Nat := 3

def I2C_ERR_TXBufferOverflow : Nat := 4

def I2C_ERR_RXBufferOverflow : Nat := 5

def I2C_ERR_slaveNACK : Nat := 6

def I2C_ERR_nothingReceived : Nat := 7

def I2C_ERR_collisionDetected : Nat := 8

def I2C_ERR_disabled : Nat := 9

/-- The constant `I2C_TRX_BUFFER_SIZE = 32` of `i2cDriver.h`. -/
def I2C_TRX_BUFFER_SIZE : Nat := 32

/-- The driver's global mutable state (`i2cDriver.c`, lines 55–63). -/
structure Driver where
  i2c_state : I2CState
  i2c_error : Nat
  i2c_stayInErrorState : Bool
  TRXBuffer : Nat → Nat
  TRXBufferCurrPos : Nat
  TRXBufferLen : Nat
  numRXBytes : Nat

/-- Hardware inputs read by one invocation of the interrupt routine. -/
structure BusEvent where
  BCL : Bool
  ACKSTAT : Bool
  I2CRCV : Nat

/-- Pointwise array update, modelling `TRXBuffer[ i ] = v`. -/
def updateFn (f : Nat → Nat) (i v : Nat) : Nat → Nat :=
  fun j => if j = i then v else f j

/-- Compute `( address << 1 ) & 0xfe`: encode a 7-bit address with the
direction bit cleared (write). -/
def addrByte (address : Nat) : Nat :=
  (address <<< 1) &&& 0xfe

/-- C `strlen` on a byte list: count bytes before the first NUL. -/
def cStrlen : List Nat → Nat
  | [] => 0
  | b :: rest => if b = 0 then 0 else cStrlen rest + 1

/-- The copy loop of `i2c_puts`:
`for ( i = 0; i < len; ++i ) TRXBuffer[ i + 2 ] = data[ i ];`. -/
def putsCopy (buf : Nat → Nat) (data : List Nat) : Nat → (Nat → Nat)
  | 0 => buf
  | n + 1 => updateFn (putsCopy buf data n) (n + 2) (data.getD n 0 % 256)

/-- Model of `void i2c_reset()`: enter idle state and reset the error variable. -/
def i2c_reset (d : Driver) : Driver :=
  { d with i2c_state := I2CState.idle, i2c_error := I2C_ERR_noError }

/-- Model of `bool i2c_busy()`. -/
def i2c_busy (d : Driver) : Bool :=
  d.i2c_state ≠ I2CState.idle && d.i2c_state ≠ I2CState.error

/-- Model of `void i2c_init( int brg, bool enableSlewRateControl, int priority )`:
everything except the final `i2c_reset()` touches only hardware registers. -/
def i2c_init (d : Driver) : Driver :=
  i2c_reset d

/-- Model of `void i2c_disable()`: interrupt/module disabling is hardware-only; the
driver-visible effect is `i2c_state = I2C_STATE_disabled`. -/
def i2c_disable (d : Driver) : Driver :=
  { d with i2c_state := I2CState.disabled }

/-- Model of `void i2c_enable()`: re-runs `i2c_init` with the saved hardware
configuration. -/
def i2c_enable (d : Driver) : Driver :=
  i2c_init d

/-- Model of `int i2c_putc( unsigned char address, unsigned char reg,
unsigned char data )`. -/
def i2c_putc (address reg data : Nat) (d : Driver) : Nat × Driver :=
  if d.i2c_error ≠ 0 then (I2C_ERR_inErrorState, d)
  else if d.i2c_state = I2CState.disabled then
    (I2C_ERR_disabled, { d with i2c_error := I2C_ERR_disabled })
  else if d.i2c_state ≠ I2CState.idle then
    (I2C_ERR_busy, { d with i2c_error := I2C_ERR_busy })
  else
    let d1 := { d with i2c_state := I2CState.error }
    if I2C_TRX_BUFFER_SIZE < 3 then
      (I2C_ERR_TXBufferOverflow, { d1 with i2c_error := I2C_ERR_TXBufferOverflow })
    else
      (I2C_ERR_noError,
        { d1 with
            TRXBufferLen := 3
            TRXBufferCurrPos := 0
            TRXBuffer :=
              updateFn
                (updateFn (updateFn d1.TRXBuffer 0 (addrByte address)) 1 (reg % 256))
                2 (data % 256)
            numRXBytes := 0
            i2c_state := I2CState.sendingStart })

/-- Model of `int i2c_puts( unsigned char address, unsigned char reg,
unsigned char *data, size_t len )`.  Note that the capacity check
`I2C_TRX_BUFFER_SIZE < 2 + len` precedes the `strlen` substitution for
`len == 0`, exactly as in the source. -/
def i2c_puts (address reg : Nat) (data : List Nat) (len : Nat) (d : Driver) :
    Nat × Driver :=
  if d.i2c_error ≠ 0 then (I2C_ERR_inErrorState, d)
  else if d.i2c_state = I2CState.disabled then
    (I2C_ERR_disabled, { d with i2c_error := I2C_ERR_disabled })
  else if d.i2c_state ≠ I2CState.idle then
    (I2C_ERR_busy, { d with i2c_error := I2C_ERR_busy })
  else
    let d1 := { d with i2c_state := I2CState.error }
    if I2C_TRX_BUFFER_SIZE < 2 + len then
      (I2C_ERR_TXBufferOverflow, { d1 with i2c_error := I2C_ERR_TXBufferOverflow })
    else
      let len := if len = 0 then cStrlen data else len
      (I2C_ERR_noError,
        { d1 with
            TRXBufferLen := 2 + len
            TRXBufferCurrPos := 0
            TRXBuffer :=
              putsCopy
                (updateFn (updateFn d1.TRXBuffer 0 (addrByte address)) 1 (reg % 256))
                data len
            numRXBytes := 0
            i2c_state := I2CState.sendingStart })

/-- Model of `int i2c_getc( unsigned char address, unsigned char reg )`. -/
def i2c_getc (address reg : Nat) (d : Driver) : Nat × Driver :=
  if d.i2c_error ≠ 0 then (I2C_ERR_inErrorState, d)
  else if d.i2c_state = I2CState.disabled then
    (I2C_ERR_disabled, { d with i2c_error := I2C_ERR_disabled })
  else if d.i2c_state ≠ I2CState.idle then
    (I2C_ERR_busy, { d with i2c_error := I2C_ERR_busy })
  else
    let d1 := { d with i2c_state := I2CState.error }
    if I2C_TRX_BUFFER_SIZE < 2 then
      (I2C_ERR_TXBufferOverflow, { d1 with i2c_error := I2C_ERR_TXBufferOverflow })
    else
      (I2C_ERR_noError,
        { d1 with
            TRXBufferLen := 2
            TRXBufferCurrPos := 0
            TRXBuffer := updateFn (updateFn d1.TRXBuffer 0 (addrByte address)) 1 (reg % 256)
            numRXBytes := 1
            i2c_state := I2CState.sendingStart })

/-- Model of `int i2c_gets( unsigned char address, unsigned char reg, size_t len )`. -/
def i2c_gets (address reg : Nat) (len : Nat) (d : Driver) : Nat × Driver :=
  if d.i2c_error ≠ 0 then (I2C_ERR_inErrorState, d)
  else if d.i2c_state = I2CState.disabled then
    (I2C_ERR_disabled, { d with i2c_error := I2C_ERR_disabled })
  else if d.i2c_state ≠ I2CState.idle then
    (I2C_ERR_busy, { d with i2c_error := I2C_ERR_busy })
  else
    let d1 := { d with i2c_state := I2CState.error }
    if I2C_TRX_BUFFER_SIZE < 2 then
      (I2C_ERR_TXBufferOverflow, { d1 with i2c_error := I2C_ERR_TXBufferOverflow })
    else if I2C_TRX_BUFFER_SIZE < 1 + len then
      (I2C_ERR_RXBufferOverflow, { d1 with i2c_error := I2C_ERR_RXBufferOverflow })
    else
      (I2C_ERR_noError,
        { d1 with
            TRXBufferLen := 2
            TRXBufferCurrPos := 0
            TRXBuffer := updateFn (updateFn d1.TRXBuffer 0 (addrByte address)) 1 (reg % 256)
            numRXBytes := len
            i2c_state := I2CState.sendingStart })

/-- Model of `int i2c_getData( unsigned char *data, size_t len )`: the caller's
destination array is modelled as a function, returned updated.  The copy loop
is `for ( i = 0; i < len; ++i ) data[ i ] = TRXBuffer[ i ];`. -/
def i2c_getData (len : Nat) (dest : Nat → Nat) (d : Driver) :
    Nat × (Nat → Nat) × Driver :=
  if d.i2c_error ≠ 0 then (I2C_ERR_inErrorState, dest, d)
  else if d.i2c_state = I2CState.disabled then
    (I2C_ERR_disabled, dest, { d with i2c_error := I2C_ERR_disabled })
  else if d.i2c_state ≠ I2CState.idle then
    (I2C_ERR_busy, dest, { d with i2c_error := I2C_ERR_busy })
  else if d.TRXBufferCurrPos = 0 then
    (I2C_ERR_nothingReceived, dest, { d with i2c_error := I2C_ERR_nothingReceived })
  else if len < d.TRXBufferCurrPos then
    (I2C_ERR_RXBufferOverflow, dest, { d with i2c_error := I2C_ERR_RXBufferOverflow })
  else
    (I2C_ERR_noError, fun i => if i < len then d.TRXBuffer i else dest i, d)

/-- The `stopDueToError` macro. -/
def stopDueToError (e : Nat) (d : Driver) : Driver :=
  if d.i2c_stayInErrorState then
    { d with i2c_error := e, i2c_state := I2CState.error }
  else
    { d with i2c_error := e, i2c_state := I2CState.sendingStop }

/-- One invocation of `I2CInterruptRoutine` with hardware inputs `ev`. -/
def i2cISR (ev : BusEvent) (d : Driver) : Driver :=
  if ev.BCL then
    { d with i2c_state := I2CState.error, i2c_error := I2C_ERR_collisionDetected }
  else
    match d.i2c_state with
    | I2CState.idle =>
        { d with i2c_error := I2C_ERR_internal, i2c_state := I2CState.error }
    | I2CState.sendingStart | I2CState.sendingRestart =>
        if d.TRXBufferCurrPos = d.TRXBufferLen then
          stopDueToError I2C_ERR_internal d
        else
          { d with i2c_state := I2CState.dataTX,
                   TRXBufferCurrPos := d.TRXBufferCurrPos + 1 }
    | I2CState.dataTX =>
        if ev.ACKSTAT then stopDueToError I2C_ERR_slaveNACK d
        else if d.TRXBufferCurrPos = d.TRXBufferLen then
          if d.numRXBytes ≠ 0 then
            if d.TRXBuffer 0 &&& 1 ≠ 0 then
              { d with TRXBufferCurrPos := 0, i2c_state := I2CState.dataRX }
            else
              { d with TRXBufferCurrPos := 0
                       TRXBuffer := updateFn d.TRXBuffer 0 (d.TRXBuffer 0 ||| 1)
                       TRXBufferLen := 1
                       i2c_state := I2CState.sendingRestart }
          else { d with i2c_state := I2CState.sendingStop }
        else
          { d with TRXBufferCurrPos := d.TRXBufferCurrPos + 1 }
    | I2CState.sendingStop => { d with i2c_state := I2CState.idle }
    | I2CState.dataRX =>
        let d1 :=
          { d with TRXBuffer := updateFn d.TRXBuffer d.TRXBufferCurrPos (ev.I2CRCV % 256)
                   TRXBufferCurrPos := d.TRXBufferCurrPos + 1 }
        if d1.TRXBufferCurrPos = d1.numRXBytes then
          { d1 with i2c_state := I2CState.sendingStop }
        else
          { d1 with i2c_state := I2CState.ack }
    | I2CState.ack => { d with i2c_state := I2CState.dataRX }
    | I2CState.error | I2CState.disabled => d

/-- Run the interrupt routine once per event, in order. -/
def runISR (evs : List BusEvent) (d : Driver) : Driver :=
  evs.foldl (fun s e => i2cISR e s) d

/-- A completion event with no collision and the slave acknowledging;
`b` is the byte sitting in the receive register. -/
def okEvent (b : Nat) : BusEvent :=
  ⟨false, false, b⟩

/-- The events of the receive loop for received bytes `bs`: each byte
arrives in a `dataRX` completion, and every byte except the last is followed
by the acknowledge-completion event. -/
def rxEvents : List Nat → List BusEvent
  | [] => []
  | [b] => [okEvent b]
  | b :: rest => okEvent b :: okEvent 0 :: rxEvents rest

/-- The five acknowledged completion events that carry a read request from
`sendingStart` to the first `dataRX` wait: start done, address byte done,
register byte done (pivot to restart), restart done, re-addressed byte done. -/
def readSetupEvents : List BusEvent :=
  [okEvent 0, okEvent 0, okEvent 0, okEvent 0, okEvent 0]

/-- A fresh driver as left by `i2c_init`/`i2c_reset`, with a zeroed buffer. -/
def freshDriver : Driver :=
  ⟨I2CState.idle, 0, true, fun _ => 0, 0, 0, 0⟩

/-- The encoded address byte has the direction bit (bit 0) cleared. -/
theorem land_fe_land_one (x : Nat) : x &&& 0xfe &&& 1 = 0 := by
  rw [Nat.and_one_is_mod]
  have ht : (x &&& 0xfe).testBit 0 = false := by
    rw [Nat.testBit_and]
    simp
  rw [Nat.testBit_zero] at ht
  have h2 := of_decide_eq_false ht
  omega

/-- Setting bit 0 with `|= 0x01` makes the direction bit read. -/
theorem lor_one_land_one (x : Nat) : (x ||| 1) &&& 1 = 1 := by
  rw [Nat.and_one_is_mod]
  have ht : (x ||| 1).testBit 0 = true := by
    rw [Nat.testBit_or]
    simp
  rw [Nat.testBit_zero] at ht
  have h2 := of_decide_eq_true ht
  omega


/-- A driver mid-transmission, used to exercise the busy path. -/
def busyDriver : Driver :=
  ⟨I2CState.dataTX, 0, true, fun _ => 0, 1, 3, 0⟩

/-- A driver latched in the error state. -/
def faultedDriver : Driver :=
  ⟨I2CState.error, 6, true, fun _ => 0, 2, 3, 0⟩

/-- C1: the Transaction Buffer invariant `cursor ≤ length ≤ 32` is broken by
`i2c_puts` in the `len = 0` null-terminated-string case: the capacity check
`I2C_TRX_BUFFER_SIZE < 2 + len` runs before `len` is replaced by
`strlen( data )`, so a 31-character string is admitted with return code
`I2C_ERR_noError` while `TRXBufferLen` becomes `33 > 32`. -/
theorem i2c_puts_strlen_overflow_eval :
    (i2c_puts 0x50 0x10 (List.replicate 31 1 ++ [0]) 0 freshDriver).1
        = I2C_ERR_noError ∧
    (i2c_puts 0x50 0x10 (List.replicate 31 1 ++ [0]) 0 freshDriver).2.TRXBufferLen
        = 33 ∧
    I2C_TRX_BUFFER_SIZE = 32 := by
  refine ⟨by decide, by decide, rfl⟩

/-- C5: an admission call made while the engine is neither `idle` nor
`disabled` and no fault is latched returns `I2C_ERR_busy` and leaves the
Transaction Buffer (data, cursor, length) and the engine state unchanged,
for all four admission entry points. -/
theorem busy_admission_frame (d : Driver) (a reg x l : Nat) (bs : List Nat)
    (he : d.i2c_error = 0) (hi : d.i2c_state ≠ I2CState.idle)
    (hd : d.i2c_state ≠ I2CState.disabled) :
    ((i2c_putc a reg x d).1 = I2C_ERR_busy ∧
      (i2c_putc a reg x d).2.i2c_state = d.i2c_state ∧
      (i2c_putc a reg x d).2.TRXBuffer = d.TRXBuffer ∧
      (i2c_putc a reg x d).2.TRXBufferCurrPos = d.TRXBufferCurrPos ∧
      (i2c_putc a reg x d).2.TRXBufferLen = d.TRXBufferLen) ∧
    ((i2c_puts a reg bs l d).1 = I2C_ERR_busy ∧
      (i2c_puts a reg bs l d).2.i2c_state = d.i2c_state ∧
      (i2c_puts a reg bs l d).2.TRXBuffer = d.TRXBuffer ∧
      (i2c_puts a reg bs l d).2.TRXBufferCurrPos = d.TRXBufferCurrPos ∧
      (i2c_puts a reg bs l d).2.TRXBufferLen = d.TRXBufferLen) ∧
    ((i2c_getc a reg d).1 = I2C_ERR_busy ∧
      (i2c_getc a reg d).2.i2c_state = d.i2c_state ∧
      (i2c_getc a reg d).2.TRXBuffer = d.TRXBuffer ∧
      (i2c_getc a reg d).2.TRXBufferCurrPos = d.TRXBufferCurrPos ∧
      (i2c_getc a reg d).2.TRXBufferLen = d.TRXBufferLen) ∧
    ((i2c_gets a reg l d).1 = I2C_ERR_busy ∧
      (i2c_gets a reg l d).2.i2c_state = d.i2c_state ∧
      (i2c_gets a reg l d).2.TRXBuffer = d.TRXBuffer ∧
      (i2c_gets a reg l d).2.TRXBufferCurrPos = d.TRXBufferCurrPos ∧
      (i2c_gets a reg l d).2.TRXBufferLen = d.TRXBufferLen) := by
  simp [i2c_putc, i2c_puts, i2c_getc, i2c_gets, he, hi, hd]

/-- Witness for C5 at a concrete mid-transmission driver. -/
theorem busy_admission_frame_witness :
    (i2c_putc 0x50 0x10 0x42 busyDriver).1 = I2C_ERR_busy :=
  (busy_admission_frame busyDriver 0x50 0x10 0x42 2 [1, 2]
    (by decide) (by decide) (by decide)).1.1

/-- C8: a completion event with the bus-collision flag set transitions any
state — `error` and `disabled` included — to the error state with
`i2c_error = I2C_ERR_collisionDetected`, and performs none of the
state-specific handling: every other field is untouched. -/
theorem collision_preempts_all_states (d : Driver) (ev : BusEvent)
    (hbcl : ev.BCL = true) :
    i2cISR ev d =
      { d with i2c_state := I2CState.error,
               i2c_error := I2C_ERR_collisionDetected } := by
  rw [i2cISR, hbcl]
  simp

/-- Witness for C8: a collision arriving while the driver is disabled. -/
theorem collision_preempts_all_states_witness :
    i2cISR ⟨true, false, 0⟩ (i2c_disable freshDriver) =
      { i2c_disable freshDriver with
          i2c_state := I2CState.error,
          i2c_error := I2C_ERR_collisionDetected } :=
  collision_preempts_all_states (i2c_disable freshDriver) ⟨true, false, 0⟩ rfl

/-- C10: `i2c_busy` returns true exactly when the engine state is neither
`idle` nor `error`; a driver latched in the error state reports not busy. -/
theorem i2c_busy_iff (d : Driver) :
    i2c_busy d = true ↔
      d.i2c_state ≠ I2CState.idle ∧ d.i2c_state ≠ I2CState.error := by
  simp [i2c_busy]

/-- Witness for C10: a faulted driver reports not busy. -/
theorem i2c_busy_iff_witness : i2c_busy faultedDriver = false := by
  cases h : i2c_busy faultedDriver
  · rfl
  · exact absurd ((i2c_busy_iff faultedDriver).mp h).2 (by decide)

/-- The driver after a completed one-byte read of register `0x10` at address
`0x50` that received the byte `0x77`: idle, no fault, one received byte at
index 0, and the stale register byte `0x10` still at index 1. -/
def afterOneByteRead : Driver :=
  runISR [okEvent 0, okEvent 0, okEvent 0, okEvent 0, okEvent 0,
          okEvent 0x77, okEvent 0]
    (i2c_getc 0x50 0x10 freshDriver).2

/-- C2 counterexample: with `cursor = 1` and `len = 2`, `i2c_getData` copies
`len` bytes — not `cursor` bytes — so it writes the stale register byte
`0x10` into destination index 1, beyond the single received byte. -/
theorem i2c_getData_writes_past_cursor_cex :
    afterOneByteRead.TRXBufferCurrPos = 1 ∧
    (i2c_getData 2 (fun _ => 0) afterOneByteRead).1 = I2C_ERR_noError ∧
    (i2c_getData 2 (fun _ => 0) afterOneByteRead).2.1 0 = 0x77 ∧
    (i2c_getData 2 (fun _ => 0) afterOneByteRead).2.1 1 = 0x10 := by
  refine ⟨by decide, by decide, by decide, by decide⟩

/-- C2 (amended): from idle with no fault, `cursor > 0` and `len ≥ cursor`,
`i2c_getData` succeeds and copies the first `len` bytes of the Transaction
Buffer (which include the `cursor` received bytes, plus stale buffer bytes
when `len > cursor`) into the destination; destination indices `≥ len` are
untouched, and the buffer and driver state are not mutated. -/
theorem i2c_getData_copies_len_bytes (d : Driver) (dest : Nat → Nat) (len : Nat)
    (hs : d.i2c_state = I2CState.idle) (he : d.i2c_error = 0)
    (hc : d.TRXBufferCurrPos ≠ 0) (hl : d.TRXBufferCurrPos ≤ len) :
    (i2c_getData len dest d).1 = I2C_ERR_noError ∧
    (∀ i, i < len → (i2c_getData len dest d).2.1 i = d.TRXBuffer i) ∧
    (∀ i, len ≤ i → (i2c_getData len dest d).2.1 i = dest i) ∧
    (i2c_getData len dest d).2.2 = d := by
  have hnl : ¬ len < d.TRXBufferCurrPos := by omega
  refine ⟨?_, ?_, ?_, ?_⟩
  · simp [i2c_getData, hs, he, hc, hnl]
  · intro i hi
    simp [i2c_getData, hs, he, hc, hnl, hi]
  · intro i hi
    have hni : ¬ i < len := by omega
    simp [i2c_getData, hs, he, hc, hnl, hni]
  · simp [i2c_getData, hs, he, hc, hnl]

/-- Witness for C2's amended theorem on the completed one-byte read. -/
theorem i2c_getData_copies_len_bytes_witness :
    (i2c_getData 1 (fun _ => 0) afterOneByteRead).1 = I2C_ERR_noError :=
  (i2c_getData_copies_len_bytes afterOneByteRead (fun _ => 0) 1
    (by decide) (by decide) (by decide) (by decide)).1

/-- A write transaction aborted by `i2c_disable` after its first byte went
out: `i2c_putc` is admitted from a fresh driver and one completion event is
handled, leaving `cursor = 1`; then the driver is disabled and re-enabled. -/
def abortedAfterOneByte : Driver :=
  i2c_enable (i2c_disable
    (i2cISR (okEvent 0) (i2c_putc 0x50 0x10 0x42 freshDriver).2))

/-- C3 counterexample: after disabling mid-transaction (one byte already
processed, so `cursor = 1`) and re-enabling, `i2c_busy` is false as claimed,
but `i2c_getData` does not fail with `I2C_ERR_nothingReceived`: it returns
`I2C_ERR_noError` and hands back the stale encoded address byte `0xa0` of the
aborted write. -/
theorem disable_enable_stale_data_cex :
    i2c_busy abortedAfterOneByte = false ∧
    (i2c_getData 1 (fun _ => 0) abortedAfterOneByte).1 = I2C_ERR_noError ∧
    (i2c_getData 1 (fun _ => 0) abortedAfterOneByte).2.1 0 = 0xa0 := by
  refine ⟨by decide, by decide, by decide⟩

/-- C3 (amended): after `i2c_disable` then `i2c_enable`, `i2c_busy` is false
immediately (the driver is idle with no fault); `TRXBufferCurrPos` is not
cleared, so a subsequent `i2c_getData` fails with `I2C_ERR_nothingReceived`
exactly when the aborted transaction had processed no byte (`cursor = 0`);
with `cursor > 0` it instead succeeds on residual buffer data. -/
theorem disable_enable_not_busy (d : Driver) (dest : Nat → Nat) (n : Nat) :
    i2c_busy (i2c_enable (i2c_disable d)) = false ∧
    (i2c_enable (i2c_disable d)).i2c_state = I2CState.idle ∧
    (i2c_enable (i2c_disable d)).i2c_error = I2C_ERR_noError ∧
    (i2c_enable (i2c_disable d)).TRXBufferCurrPos = d.TRXBufferCurrPos ∧
    (d.TRXBufferCurrPos = 0 →
      (i2c_getData n dest (i2c_enable (i2c_disable d))).1
        = I2C_ERR_nothingReceived) := by
  refine ⟨?_, ?_, ?_, ?_, fun h0 => ?_⟩
  · simp [i2c_busy, i2c_enable, i2c_init, i2c_reset, i2c_disable]
  · simp [i2c_enable, i2c_init, i2c_reset, i2c_disable]
  · simp [i2c_enable, i2c_init, i2c_reset, i2c_disable, I2C_ERR_noError]
  · simp [i2c_enable, i2c_init, i2c_reset, i2c_disable]
  · simp [i2c_enable, i2c_init, i2c_reset, i2c_disable, i2c_getData,
      I2C_ERR_noError, h0]

/-- Witness for C3's amended theorem: disabling right after admission
(`cursor` still 0) makes `i2c_getData` report nothing received. -/
theorem disable_enable_not_busy_witness :
    (i2c_getData 4 (fun _ => 0)
      (i2c_enable (i2c_disable (i2c_putc 0x50 0x10 0x42 freshDriver).2))).1
        = I2C_ERR_nothingReceived :=
  (disable_enable_not_busy (i2c_putc 0x50 0x10 0x42 freshDriver).2
    (fun _ => 0) 4).2.2.2.2 (by decide)

/-- A driver mid-transmission with the auto-drain policy selected. -/
def autoDrainDriver : Driver :=
  ⟨I2CState.dataTX, 0, false, fun _ => 0, 1, 3, 0⟩

/-- C4 counterexample: a collision fault with `i2c_stayInErrorState = false`
does not emit a stop condition and does not return to idle — the collision
branch of the interrupt routine latches the error state unconditionally,
bypassing `stopDueToError`. -/
theorem collision_ignores_autodrain_cex :
    autoDrainDriver.i2c_stayInErrorState = false ∧
    (i2cISR ⟨true, false, 0⟩ autoDrainDriver).i2c_state = I2CState.error ∧
    (i2cISR ⟨true, false, 0⟩ autoDrainDriver).i2c_error
      = I2C_ERR_collisionDetected := by
  refine ⟨by decide, by decide, by decide⟩

/-- C4 (amended): with `i2c_stayInErrorState = false`, only the faults routed
through `stopDueToError` — slave-NACK during transmit and the internal fault
on buffer exhaustion at start/restart — emit a stop condition and reach idle
on the stop completion, the fault kind staying readable in `i2c_error` until
`i2c_reset` clears it; a collision instead latches the error state regardless
of the policy. -/
theorem autodrain_fault_behaviour (d : Driver) (ev : BusEvent)
    (hstay : d.i2c_stayInErrorState = false) (hbcl : ev.BCL = false) :
    (d.i2c_state = I2CState.dataTX → ev.ACKSTAT = true →
      (i2cISR ev d).i2c_state = I2CState.sendingStop ∧
      (i2cISR ev d).i2c_error = I2C_ERR_slaveNACK ∧
      (i2cISR (okEvent 0) (i2cISR ev d)).i2c_state = I2CState.idle ∧
      (i2cISR (okEvent 0) (i2cISR ev d)).i2c_error = I2C_ERR_slaveNACK ∧
      (i2c_reset (i2cISR (okEvent 0) (i2cISR ev d))).i2c_error
        = I2C_ERR_noError) ∧
    ((d.i2c_state = I2CState.sendingStart ∨
        d.i2c_state = I2CState.sendingRestart) →
      d.TRXBufferCurrPos = d.TRXBufferLen →
      (i2cISR ev d).i2c_state = I2CState.sendingStop ∧
      (i2cISR ev d).i2c_error = I2C_ERR_internal ∧
      (i2cISR (okEvent 0) (i2cISR ev d)).i2c_state = I2CState.idle ∧
      (i2cISR (okEvent 0) (i2cISR ev d)).i2c_error = I2C_ERR_internal) ∧
    (∀ ev2 : BusEvent, ev2.BCL = true →
      (i2cISR ev2 d).i2c_state = I2CState.error ∧
      (i2cISR ev2 d).i2c_error = I2C_ERR_collisionDetected) := by
  refine ⟨?_, ?_, ?_⟩
  · intro hs hack
    simp [i2cISR, hbcl, hs, hack, stopDueToError, hstay, okEvent, i2c_reset]
  · rintro (hs | hs) hcl <;>
      simp [i2cISR, hbcl, hs, hcl, stopDueToError, hstay, okEvent]
  · intro ev2 h2
    simp [i2cISR, h2]

/-- Witness for C4's amended theorem: a slave NACK under the auto-drain
policy reaches the stop state with the fault latched. -/
theorem autodrain_fault_behaviour_witness :
    (i2cISR ⟨false, true, 0⟩ autoDrainDriver).i2c_state
      = I2CState.sendingStop :=
  ((autodrain_fault_behaviour autoDrainDriver ⟨false, true, 0⟩
    (by decide) rfl).1 rfl rfl).1

/-- A driver at the end of the write phase of a write-then-read request:
transmitting, buffer exhausted (`cursor = len = 2`), one byte expected back,
direction bit of byte 0 still write. -/
def pivotReadyDriver : Driver :=
  ⟨I2CState.dataTX, 0, true, fun i => if i = 0 then 0xa0 else 0x10, 2, 2, 1⟩

/-- C7 counterexample: a completion event satisfying the claim's conditions
(`dataTX`, `cursor = length`, `expectedRxBytes > 0`, direction bit write) but
carrying a slave NACK does not perform the restart pivot — the NACK check
runs first and the driver latches the error state instead. -/
theorem dataTX_pivot_requires_ack_cex :
    pivotReadyDriver.TRXBufferCurrPos = pivotReadyDriver.TRXBufferLen ∧
    pivotReadyDriver.numRXBytes ≠ 0 ∧
    pivotReadyDriver.TRXBuffer 0 &&& 1 = 0 ∧
    (i2cISR ⟨false, true, 0⟩ pivotReadyDriver).i2c_state = I2CState.error ∧
    (i2cISR ⟨false, true, 0⟩ pivotReadyDriver).i2c_state
      ≠ I2CState.sendingRestart ∧
    (i2cISR ⟨false, true, 0⟩ pivotReadyDriver).TRXBufferCurrPos = 2 := by
  refine ⟨by decide, by decide, by decide, by decide, by decide, by decide⟩

/-- C7 (amended): on a completion event in `dataTX` with no collision and the
slave acknowledging, if `cursor = length`, `numRXBytes > 0` and the direction
bit of buffer byte 0 is still write, the handler resets the cursor to 0, sets
the direction bit of byte 0 to read, shrinks the length to 1 so only the
address byte is resent, and moves to `sendingRestart` (the restart condition
is armed by the `sendReStartCondition` macro). -/
theorem dataTX_restart_pivot (d : Driver) (ev : BusEvent)
    (hs : d.i2c_state = I2CState.dataTX) (hbcl : ev.BCL = false)
    (hack : ev.ACKSTAT = false)
    (hcl : d.TRXBufferCurrPos = d.TRXBufferLen) (hrx : d.numRXBytes ≠ 0)
    (hdir : d.TRXBuffer 0 &&& 1 = 0) :
    (i2cISR ev d).TRXBufferCurrPos = 0 ∧
    (i2cISR ev d).TRXBuffer 0 = (d.TRXBuffer 0 ||| 1) ∧
    (i2cISR ev d).TRXBuffer 0 &&& 1 = 1 ∧
    (i2cISR ev d).TRXBufferLen = 1 ∧
    (i2cISR ev d).i2c_state = I2CState.sendingRestart := by
  refine ⟨?_, ?_, ?_, ?_, ?_⟩ <;>
    simp [i2cISR, hs, hbcl, hack, hcl, hrx, hdir, updateFn, lor_one_land_one]

/-- Witness for C7's amended theorem at the concrete pivot-ready driver. -/
theorem dataTX_restart_pivot_witness :
    (i2cISR ⟨false, false, 0⟩ pivotReadyDriver).i2c_state
      = I2CState.sendingRestart :=
  (dataTX_restart_pivot pivotReadyDriver ⟨false, false, 0⟩
    (by decide) rfl rfl (by decide) (by decide) (by decide)).2.2.2.2


/-- The macro model `stopDueToError` always stores the given fault code. -/
theorem stopDueToError_i2c_error (e : Nat) (d : Driver) :
    (stopDueToError e d).i2c_error = e := by
  rw [stopDueToError]
  split <;> rfl

/-- The interrupt routine never clears a latched fault: every error code it
stores (`collisionDetected`, `internal`, `slaveNACK`) is nonzero, and all
other paths leave `i2c_error` untouched. -/
theorem i2cISR_error_ne_zero (d : Driver) (ev : BusEvent)
    (h : d.i2c_error ≠ 0) : (i2cISR ev d).i2c_error ≠ 0 := by
  unfold i2cISR stopDueToError
  repeat' split
  all_goals
    try simp only [apply_ite, ite_self]
  all_goals
    first
      | exact h
      | simp [h, I2C_ERR_internal, I2C_ERR_slaveNACK, I2C_ERR_collisionDetected]

/-- A nonzero latched fault survives any sequence of interrupt events. -/
theorem runISR_error_ne_zero (evs : List BusEvent) (d : Driver)
    (h : d.i2c_error ≠ 0) : (runISR evs d).i2c_error ≠ 0 := by
  induction evs generalizing d with
  | nil => exact h
  | cons e rest ih => exact ih (i2cISR e d) (i2cISR_error_ne_zero d e h)

/-- With a nonzero fault latched, every admission call and `i2c_getData`
returns `I2C_ERR_inErrorState` and leaves the driver untouched. -/
theorem inErrorState_rejects (d : Driver) (a reg x l n : Nat) (bs : List Nat)
    (dest : Nat → Nat) (h : d.i2c_error ≠ 0) :
    (i2c_putc a reg x d).1 = I2C_ERR_inErrorState ∧
    (i2c_putc a reg x d).2 = d ∧
    (i2c_puts a reg bs l d).1 = I2C_ERR_inErrorState ∧
    (i2c_puts a reg bs l d).2 = d ∧
    (i2c_getc a reg d).1 = I2C_ERR_inErrorState ∧
    (i2c_getc a reg d).2 = d ∧
    (i2c_gets a reg l d).1 = I2C_ERR_inErrorState ∧
    (i2c_gets a reg l d).2 = d ∧
    (i2c_getData n dest d).1 = I2C_ERR_inErrorState ∧
    (i2c_getData n dest d).2.1 = dest := by
  refine ⟨?_, ?_, ?_, ?_, ?_, ?_, ?_, ?_, ?_, ?_⟩ <;>
    simp [i2c_putc, i2c_puts, i2c_getc, i2c_gets, i2c_getData, h]

/-- C9: every admission call (`i2c_putc`, `i2c_puts`, `i2c_getc`,
`i2c_gets`) rejected with busy latches `i2c_error = I2C_ERR_busy`, and every
one rejected while disabled latches `I2C_ERR_disabled`; any nonzero latched
code stays nonzero across any sequence of completion events (in particular
across the successful completion of the in-flight transaction that caused
the busy rejection), so every later admission call and `i2c_getData` fails
with `I2C_ERR_inErrorState` and changes nothing, until `i2c_reset` clears
the fault. -/
theorem busy_rejection_latches_error (d d2 : Driver) (a reg x l n : Nat)
    (bs : List Nat) (evs : List BusEvent) (dest : Nat → Nat)
    (he : d.i2c_error = 0) (hi : d.i2c_state ≠ I2CState.idle)
    (hd : d.i2c_state ≠ I2CState.disabled)
    (he2 : d2.i2c_error = 0) (hs2 : d2.i2c_state = I2CState.disabled) :
    ((i2c_putc a reg x d).1 = I2C_ERR_busy ∧
      (i2c_putc a reg x d).2.i2c_error = I2C_ERR_busy) ∧
    ((i2c_puts a reg bs l d).1 = I2C_ERR_busy ∧
      (i2c_puts a reg bs l d).2.i2c_error = I2C_ERR_busy) ∧
    ((i2c_getc a reg d).1 = I2C_ERR_busy ∧
      (i2c_getc a reg d).2.i2c_error = I2C_ERR_busy) ∧
    ((i2c_gets a reg l d).1 = I2C_ERR_busy ∧
      (i2c_gets a reg l d).2.i2c_error = I2C_ERR_busy) ∧
    ((i2c_putc a reg x d2).1 = I2C_ERR_disabled ∧
      (i2c_putc a reg x d2).2.i2c_error = I2C_ERR_disabled) ∧
    ((i2c_puts a reg bs l d2).1 = I2C_ERR_disabled ∧
      (i2c_puts a reg bs l d2).2.i2c_error = I2C_ERR_disabled) ∧
    ((i2c_getc a reg d2).1 = I2C_ERR_disabled ∧
      (i2c_getc a reg d2).2.i2c_error = I2C_ERR_disabled) ∧
    ((i2c_gets a reg l d2).1 = I2C_ERR_disabled ∧
      (i2c_gets a reg l d2).2.i2c_error = I2C_ERR_disabled) ∧
    (∀ d3 : Driver, d3.i2c_error ≠ 0 →
      (runISR evs d3).i2c_error ≠ 0 ∧
      (i2c_putc a reg x (runISR evs d3)).1 = I2C_ERR_inErrorState ∧
      (i2c_putc a reg x (runISR evs d3)).2 = runISR evs d3 ∧
      (i2c_puts a reg bs l (runISR evs d3)).1 = I2C_ERR_inErrorState ∧
      (i2c_puts a reg bs l (runISR evs d3)).2 = runISR evs d3 ∧
      (i2c_getc a reg (runISR evs d3)).1 = I2C_ERR_inErrorState ∧
      (i2c_getc a reg (runISR evs d3)).2 = runISR evs d3 ∧
      (i2c_gets a reg l (runISR evs d3)).1 = I2C_ERR_inErrorState ∧
      (i2c_gets a reg l (runISR evs d3)).2 = runISR evs d3 ∧
      (i2c_getData n dest (runISR evs d3)).1 = I2C_ERR_inErrorState ∧
      (i2c_reset (runISR evs d3)).i2c_error = I2C_ERR_noError) := by
  refine ⟨⟨?_, ?_⟩, ⟨?_, ?_⟩, ⟨?_, ?_⟩, ⟨?_, ?_⟩,
    ⟨?_, ?_⟩, ⟨?_, ?_⟩, ⟨?_, ?_⟩, ⟨?_, ?_⟩, ?_⟩
  · simp [i2c_putc, he, hi, hd]
  · simp [i2c_putc, he, hi, hd]
  · simp [i2c_puts, he, hi, hd]
  · simp [i2c_puts, he, hi, hd]
  · simp [i2c_getc, he, hi, hd]
  · simp [i2c_getc, he, hi, hd]
  · simp [i2c_gets, he, hi, hd]
  · simp [i2c_gets, he, hi, hd]
  · simp [i2c_putc, he2, hs2]
  · simp [i2c_putc, he2, hs2]
  · simp [i2c_puts, he2, hs2]
  · simp [i2c_puts, he2, hs2]
  · simp [i2c_getc, he2, hs2]
  · simp [i2c_getc, he2, hs2]
  · simp [i2c_gets, he2, hs2]
  · simp [i2c_gets, he2, hs2]
  · intro d3 h3
    have hne := runISR_error_ne_zero evs d3 h3
    have hrest := inErrorState_rejects (runISR evs d3) a reg x l n bs dest hne
    exact ⟨hne, hrest.1, hrest.2.1, hrest.2.2.1, hrest.2.2.2.1,
      hrest.2.2.2.2.1, hrest.2.2.2.2.2.1, hrest.2.2.2.2.2.2.1,
      hrest.2.2.2.2.2.2.2.1, hrest.2.2.2.2.2.2.2.2.1, by simp [i2c_reset]⟩

/-- Witness for C9: a busy rejection during a write transaction still blocks
admissions with `I2C_ERR_inErrorState` after the transaction has completed
(four more events carry the three-byte write to idle). -/
theorem busy_rejection_latches_error_witness :
    (i2c_putc 0x22 0x01 0x02
      (runISR [okEvent 0, okEvent 0, okEvent 0, okEvent 0]
        (i2c_putc 0x22 0x01 0x02
          (i2cISR (okEvent 0) (i2c_putc 0x50 0x10 0x42 freshDriver).2)).2)).1
      = I2C_ERR_inErrorState := by
  have h := busy_rejection_latches_error
    (i2cISR (okEvent 0) (i2c_putc 0x50 0x10 0x42 freshDriver).2)
    (i2c_disable freshDriver)
    0x22 0x01 0x02 2 4 [1, 2] [okEvent 0, okEvent 0, okEvent 0, okEvent 0]
    (fun _ => 0) (by decide) (by decide) (by decide) (by decide) (by decide)
  exact (h.2.2.2.2.2.2.2.2
    (i2c_putc 0x22 0x01 0x02
      (i2cISR (okEvent 0) (i2c_putc 0x50 0x10 0x42 freshDriver).2)).2
    (by decide)).2.1

theorem runISR_nil (d : Driver) : runISR [] d = d := rfl

theorem runISR_cons (e : BusEvent) (evs : List BusEvent) (d : Driver) :
    runISR (e :: evs) d = runISR evs (i2cISR e d) := rfl

theorem runISR_append (xs ys : List BusEvent) (d : Driver) :
    runISR (xs ++ ys) d = runISR ys (runISR xs d) :=
  List.foldl_append _ _ xs ys

/-- Running the receive loop: from `dataRX` with `cursor + |bs| = numRXBytes`
and `bs` nonempty, the events `rxEvents bs` store the bytes of `bs` (mod 256)
at consecutive buffer positions starting at the cursor, advance the cursor to
`numRXBytes`, leave all other fields and the earlier buffer contents alone,
and end in `sendingStop` (the stop condition armed right after the final
byte). -/
theorem rxEvents_run (bs : List Nat) (d : Driver)
    (hst : d.i2c_state = I2CState.dataRX) (hne : bs ≠ [])
    (hcount : d.TRXBufferCurrPos + bs.length = d.numRXBytes) :
    (runISR (rxEvents bs) d).i2c_state = I2CState.sendingStop ∧
    (runISR (rxEvents bs) d).TRXBufferCurrPos = d.numRXBytes ∧
    (runISR (rxEvents bs) d).i2c_error = d.i2c_error ∧
    (runISR (rxEvents bs) d).numRXBytes = d.numRXBytes ∧
    (∀ i, i < d.TRXBufferCurrPos →
      (runISR (rxEvents bs) d).TRXBuffer i = d.TRXBuffer i) ∧
    (∀ j, j < bs.length →
      (runISR (rxEvents bs) d).TRXBuffer (d.TRXBufferCurrPos + j)
        = bs.getD j 0 % 256) := by
  induction bs generalizing d with
  | nil => exact absurd rfl hne
  | cons b rest ih =>
    cases rest with
    | nil =>
      have hc1 : d.TRXBufferCurrPos + 1 = d.numRXBytes := by
        simpa using hcount
      refine ⟨?_, ?_, ?_, ?_, ?_, ?_⟩ <;>
        simp [rxEvents, runISR_cons, runISR_nil, i2cISR, okEvent, hst, hc1,
          updateFn]
      · intro i hi
        omega
    | cons c rest2 =>
      have hne1 : ¬ (d.TRXBufferCurrPos + 1 = d.numRXBytes) := by
        simp at hcount
        omega
      have hstep : i2cISR (okEvent 0) (i2cISR (okEvent b) d) =
          { d with
              TRXBuffer := updateFn d.TRXBuffer d.TRXBufferCurrPos (b % 256),
              TRXBufferCurrPos := d.TRXBufferCurrPos + 1,
              i2c_state := I2CState.dataRX } := by
        simp [i2cISR, okEvent, hst, hne1]
      have hrw : runISR (rxEvents (b :: c :: rest2)) d =
          runISR (rxEvents (c :: rest2))
            { d with
                TRXBuffer := updateFn d.TRXBuffer d.TRXBufferCurrPos (b % 256),
                TRXBufferCurrPos := d.TRXBufferCurrPos + 1,
                i2c_state := I2CState.dataRX } := by
        rw [show rxEvents (b :: c :: rest2)
              = okEvent b :: okEvent 0 :: rxEvents (c :: rest2) from rfl,
          runISR_cons, runISR_cons, hstep]
      have hcount2 :
          d.TRXBufferCurrPos + 1 + (c :: rest2).length = d.numRXBytes := by
        simp at hcount ⊢
        omega
      have hih := ih
        { d with
            TRXBuffer := updateFn d.TRXBuffer d.TRXBufferCurrPos (b % 256),
            TRXBufferCurrPos := d.TRXBufferCurrPos + 1,
            i2c_state := I2CState.dataRX }
        rfl (by simp) hcount2
      rw [hrw]
      obtain ⟨h1, h2, h3, h4, h5, h6⟩ := hih
      refine ⟨h1, by simpa using h2, h3, h4, ?_, ?_⟩
      · intro i hi
        rw [h5 i (by simpa using Nat.lt_succ_of_lt hi)]
        simp [updateFn]
        omega
      · intro j hj
        match j with
        | 0 =>
          rw [show d.TRXBufferCurrPos + 0 = d.TRXBufferCurrPos from rfl]
          rw [h5 d.TRXBufferCurrPos (by simp)]
          simp [updateFn]
        | Nat.succ j2 =>
          have hj2 : j2 < (c :: rest2).length := by
            simp at hj ⊢
            omega
          have := h6 j2 hj2
          simp only [Driver.TRXBufferCurrPos] at this
          rw [show d.TRXBufferCurrPos + (j2 + 1)
                = d.TRXBufferCurrPos + 1 + j2 by omega]
          rw [this]
          simp

theorem updateFn_same (f : Nat → Nat) (i v : Nat) : updateFn f i v i = v := by
  simp [updateFn]

theorem updateFn_other (f : Nat → Nat) (i v j : Nat) (h : j ≠ i) :
    updateFn f i v j = f j := by
  simp [updateFn, h]

/-- The encoded address byte always has the direction bit cleared. -/
theorem addrByte_land_one (a : Nat) : addrByte a &&& 1 = 0 := by
  rw [addrByte]
  exact land_fe_land_one _

/-- The direction-bit test, in the `% 2` form `simp` normalises `&&& 1` to. -/
theorem addrByte_mod_two (a : Nat) : addrByte a % 2 = 0 := by
  have h := addrByte_land_one a
  rwa [Nat.and_one_is_mod] at h

/-- Bit 0 set by `|= 0x01`, in the `% 2` form. -/
theorem lor_one_mod_two (x : Nat) : (x ||| 1) % 2 = 1 := by
  have h := lor_one_land_one x
  rwa [Nat.and_one_is_mod] at h

/-- C6: a read request `i2c_gets a reg N` admitted from idle with no fault
(`1 ≤ N ≤ 31`, here `N = bs.length` for received bytes `bs`) succeeds; the
acknowledged completion sequence — five setup events, then the receive loop —
stores exactly the `N` received bytes at buffer positions `0..N-1` and only
then arms the stop condition (`sendingStop`, cursor `= N`); the stop
completion reaches idle, and `i2c_getData` into a destination of size `N`
succeeds and returns exactly those `N` bytes in receipt order. -/
theorem i2c_gets_read_roundtrip (a reg : Nat) (bs : List Nat) (d : Driver)
    (dest : Nat → Nat)
    (hs : d.i2c_state = I2CState.idle) (he : d.i2c_error = 0)
    (hne : bs ≠ []) (hlen : bs.length ≤ 31) :
    (i2c_gets a reg bs.length d).1 = I2C_ERR_noError ∧
    (runISR (readSetupEvents ++ rxEvents bs)
        (i2c_gets a reg bs.length d).2).i2c_state = I2CState.sendingStop ∧
    (runISR (readSetupEvents ++ rxEvents bs)
        (i2c_gets a reg bs.length d).2).TRXBufferCurrPos = bs.length ∧
    (∀ j, j < bs.length →
      (runISR (readSetupEvents ++ rxEvents bs)
          (i2c_gets a reg bs.length d).2).TRXBuffer j = bs.getD j 0 % 256) ∧
    (i2cISR (okEvent 0) (runISR (readSetupEvents ++ rxEvents bs)
        (i2c_gets a reg bs.length d).2)).i2c_state = I2CState.idle ∧
    (i2c_getData bs.length dest
        (i2cISR (okEvent 0) (runISR (readSetupEvents ++ rxEvents bs)
          (i2c_gets a reg bs.length d).2))).1 = I2C_ERR_noError ∧
    (∀ j, j < bs.length →
      (i2c_getData bs.length dest
          (i2cISR (okEvent 0) (runISR (readSetupEvents ++ rxEvents bs)
            (i2c_gets a reg bs.length d).2))).2.1 j = bs.getD j 0 % 256) := by
  have hn0 : bs.length ≠ 0 := by simpa using hne
  have hcap : ¬ (I2C_TRX_BUFFER_SIZE < 1 + bs.length) := by
    rw [I2C_TRX_BUFFER_SIZE]
    omega
  have hgets : i2c_gets a reg bs.length d =
      (I2C_ERR_noError,
        { d with
            i2c_state := I2CState.sendingStart
            TRXBuffer := updateFn (updateFn d.TRXBuffer 0 (addrByte a)) 1 (reg % 256)
            TRXBufferCurrPos := 0
            TRXBufferLen := 2
            numRXBytes := bs.length }) := by
    simp [i2c_gets, hs, he, hcap, I2C_TRX_BUFFER_SIZE]
    omega
  have hsetup : runISR readSetupEvents
      { d with
          i2c_state := I2CState.sendingStart
          TRXBuffer := updateFn (updateFn d.TRXBuffer 0 (addrByte a)) 1 (reg % 256)
          TRXBufferCurrPos := 0
          TRXBufferLen := 2
          numRXBytes := bs.length } =
      { d with
          i2c_state := I2CState.dataRX
          TRXBuffer :=
            updateFn (updateFn (updateFn d.TRXBuffer 0 (addrByte a)) 1 (reg % 256))
              0 (addrByte a ||| 1)
          TRXBufferCurrPos := 0
          TRXBufferLen := 1
          numRXBytes := bs.length } := by
    simp [readSetupEvents, runISR_cons, runISR_nil, i2cISR, okEvent, hn0,
      updateFn_same, updateFn_other, addrByte_land_one, lor_one_land_one,
      addrByte_mod_two, lor_one_mod_two]
  simp only [hgets, runISR_append, hsetup]
  have hmid := rxEvents_run bs
    { d with
        i2c_state := I2CState.dataRX
        TRXBuffer :=
          updateFn (updateFn (updateFn d.TRXBuffer 0 (addrByte a)) 1 (reg % 256))
            0 (addrByte a ||| 1)
        TRXBufferCurrPos := 0
        TRXBufferLen := 1
        numRXBytes := bs.length }
    rfl hne (by simp)
  obtain ⟨hm1, hm2, hm3, hm4, _, hm6⟩ := hmid
  simp only at hm2 hm3 hm6
  have hbuf : ∀ j, j < bs.length →
      (runISR (rxEvents bs)
        { d with
            i2c_state := I2CState.dataRX
            TRXBuffer :=
              updateFn (updateFn (updateFn d.TRXBuffer 0 (addrByte a)) 1 (reg % 256))
                0 (addrByte a ||| 1)
            TRXBufferCurrPos := 0
            TRXBufferLen := 1
            numRXBytes := bs.length }).TRXBuffer j = bs.getD j 0 % 256 := by
    intro j hj
    have := hm6 j hj
    simpa using this
  have hstop_state : (i2cISR (okEvent 0) (runISR (rxEvents bs)
      { d with
          i2c_state := I2CState.dataRX
          TRXBuffer :=
            updateFn (updateFn (updateFn d.TRXBuffer 0 (addrByte a)) 1 (reg % 256))
              0 (addrByte a ||| 1)
          TRXBufferCurrPos := 0
          TRXBufferLen := 1
          numRXBytes := bs.length })).i2c_state = I2CState.idle := by
    simp [i2cISR, okEvent, hm1]
  have hstop_err : (i2cISR (okEvent 0) (runISR (rxEvents bs)
      { d with
          i2c_state := I2CState.dataRX
          TRXBuffer :=
            updateFn (updateFn (updateFn d.TRXBuffer 0 (addrByte a)) 1 (reg % 256))
              0 (addrByte a ||| 1)
          TRXBufferCurrPos := 0
          TRXBufferLen := 1
          numRXBytes := bs.length })).i2c_error = 0 := by
    have h9 : (i2cISR (okEvent 0) (runISR (rxEvents bs)
        { d with
            i2c_state := I2CState.dataRX
            TRXBuffer :=
              updateFn (updateFn (updateFn d.TRXBuffer 0 (addrByte a)) 1 (reg % 256))
                0 (addrByte a ||| 1)
            TRXBufferCurrPos := 0
            TRXBufferLen := 1
            numRXBytes := bs.length })).i2c_error = d.i2c_error := by
      simp [i2cISR, okEvent, hm1, hm3]
    rw [h9, he]
  have hstop_cur : (i2cISR (okEvent 0) (runISR (rxEvents bs)
      { d with
          i2c_state := I2CState.dataRX
          TRXBuffer :=
            updateFn (updateFn (updateFn d.TRXBuffer 0 (addrByte a)) 1 (reg % 256))
              0 (addrByte a ||| 1)
          TRXBufferCurrPos := 0
          TRXBufferLen := 1
          numRXBytes := bs.length })).TRXBufferCurrPos = bs.length := by
    simp [i2cISR, okEvent, hm1, hm2]
  have hstop_buf : (i2cISR (okEvent 0) (runISR (rxEvents bs)
      { d with
          i2c_state := I2CState.dataRX
          TRXBuffer :=
            updateFn (updateFn (updateFn d.TRXBuffer 0 (addrByte a)) 1 (reg % 256))
              0 (addrByte a ||| 1)
          TRXBufferCurrPos := 0
          TRXBufferLen := 1
          numRXBytes := bs.length })).TRXBuffer = (runISR (rxEvents bs)
      { d with
          i2c_state := I2CState.dataRX
          TRXBuffer :=
            updateFn (updateFn (updateFn d.TRXBuffer 0 (addrByte a)) 1 (reg % 256))
              0 (addrByte a ||| 1)
          TRXBufferCurrPos := 0
          TRXBufferLen := 1
          numRXBytes := bs.length }).TRXBuffer := by
    simp [i2cISR, okEvent, hm1]
  refine ⟨trivial, hm1, by simpa using hm2, hbuf, hstop_state, ?_, ?_⟩
  · simp [i2c_getData, hstop_state, hstop_err, hstop_cur, hn0]
  · intro j hj
    simp [i2c_getData, hstop_state, hstop_err, hstop_cur, hn0, hj, hstop_buf,
      hbuf j hj]

/-- Witness for C6: reading two bytes `[0x5a, 0x3c]` from register `0x10` at
address `0x50` hands exactly those bytes back through `i2c_getData`. -/
theorem i2c_gets_read_roundtrip_witness :
    (i2c_getData 2 (fun _ => 0)
        (i2cISR (okEvent 0) (runISR (readSetupEvents ++ rxEvents [0x5a, 0x3c])
          (i2c_gets 0x50 0x10 [0x5a, 0x3c].length freshDriver).2))).1
      = I2C_ERR_noError :=
  (i2c_gets_read_roundtrip 0x50 0x10 [0x5a, 0x3c] freshDriver (fun _ => 0)
    rfl rfl (by decide) (by decide)).2.2.2.2.2.1
